import Mathlib

/-!
Shallow embedding of `src/bot.py`, a Discord nutrition bot.

Modelling conventions:
- Python `dict` payloads become structures whose fields are `Option`-valued;
  `none` models an absent key (`payload.get(k)` returning `None`).
- JSON numeric fields are modelled as `Int`.  Every claim evaluates the
  renderer only at integral values, where Python formatting `{x:.0f}` is
  `toString x` and `{x:.1f}` is `toString x ++ ".0"`.
- Python string slicing `s[:n]` operates on code points, as does `pyTake`.
- Python truthiness of an optional string (`if s:`) is `pyStrTruthy`,
  which rejects both `None` and the empty string.
- The Discord embed is modelled by the `Embed` structure: title,
  description, ordered field list, footer text, and author name (the
  avatar URL carries no text and no claim mentions it).
- The two OpenAI calls in the handler are modelled as trace events
  (`ApiCall`), and their outcomes plus the outcome of `json.loads` are
  supplied by an environment `Env`, so `on_message` becomes a pure
  function from (allow-list, message, environment) to the list of calls
  issued and the reply sent.
-/

set_option maxRecDepth 10000

namespace Bot

/-- Python truthiness for an optional string: `None` and `""` are falsy. -/
def pyStrTruthy : Option String → Option String
  | none => none
  | some s => if s = "" then none else some s

/-- Python slice `s[:n]` (by code points, like Python). -/
def pyTake (s : String) (n : Nat) : String := String.mk (s.data.take n)

/-- Python `f"{x:.0f}"` for an integral value `x`. -/
def fmt0 (n : Int) : String := toString n

/-- Python `f"{x:.1f}"` for an integral value `x`. -/
def fmt1 (n : Int) : String := toString n ++ ".0"

/-- One element of the `items` array of the JSON payload (bot.py, JSON_SCHEMA). -/
structure FoodItem where
  name : Option String
  quantity : Option String
  calories_kcal : Option Int
  protein_g : Option Int
  carbs_g : Option Int
  fat_g : Option Int
deriving DecidableEq

/-- The `totals` object of the JSON payload. -/
structure Totals where
  calories_kcal : Option Int
  protein_g : Option Int
  carbs_g : Option Int
  fat_g : Option Int
deriving DecidableEq

/-- The `plan` object of the JSON payload. -/
structure Plan where
  calories_kcal : Option Int
  protein_g : Option Int
  carbs_g : Option Int
  fat_g : Option Int
  notes : Option String
deriving DecidableEq

/-- The decoded JSON payload handed to `build_embed_from_payload`. -/
structure Payload where
  kind : Option String
  items : Option (List FoodItem)
  totals : Option Totals
  plan : Option Plan
  assumptions : Option String
deriving DecidableEq

/-- The empty dict that `payload.get("totals") or \x7b\x7d` falls back to. -/
def emptyTotals : Totals := ⟨none, none, none, none⟩

/-- The empty dict that `payload.get("plan") or \x7b\x7d` falls back to. -/
def emptyPlan : Plan := ⟨none, none, none, none, none⟩

/-- One field of a Discord embed (`embed.add_field`). -/
structure EmbedField where
  name : String
  value : String
  inline : Bool
deriving DecidableEq

/-- A Discord embed as built by the bot. -/
structure Embed where
  title : Option String := none
  description : Option String := none
  fields : List EmbedField := []
  footer : Option String := none
  authorName : String := ""
deriving DecidableEq

/-- The `Totals` field value (bot.py lines 119-128). -/
def totalsValue (t : Totals) : String :=
  "**Calories:** " ++ fmt0 (t.calories_kcal.getD 0) ++ " kcal\n" ++
  "**Protein:** " ++ fmt1 (t.protein_g.getD 0) ++ " g  " ++
  "**Carbs:** " ++ fmt1 (t.carbs_g.getD 0) ++ " g  " ++
  "**Fat:** " ++ fmt1 (t.fat_g.getD 0) ++ " g"

/-- One line of the `Items` field (bot.py lines 132-138). -/
def itemLine (it : FoodItem) : String :=
  let q := match pyStrTruthy it.quantity with
    | some qs => " — " ++ qs
    | none => ""
  "• **" ++ it.name.getD "?" ++ "**" ++ q ++ ": " ++
  fmt0 (it.calories_kcal.getD 0) ++ " kcal | " ++
  "P " ++ fmt1 (it.protein_g.getD 0) ++ " • C " ++ fmt1 (it.carbs_g.getD 0) ++
  " • F " ++ fmt1 (it.fat_g.getD 0)

/-- The `Targets` field value (bot.py lines 144-153). -/
def targetsValue (p : Plan) : String :=
  "**Calories:** " ++ fmt0 (p.calories_kcal.getD 0) ++ " kcal/day\n" ++
  "**Protein:** " ++ fmt0 (p.protein_g.getD 0) ++ " g  " ++
  "**Carbs:** " ++ fmt0 (p.carbs_g.getD 0) ++ " g  " ++
  "**Fat:** " ++ fmt0 (p.fat_g.getD 0) ++ " g"

/-- Fallback description for an unrecognized `kind` (bot.py line 159). -/
def fallbackDescription : String :=
  "I couldn\x27t determine whether this was a food log or macro plan."

/-- `build_embed_from_payload` (bot.py lines 111-165). -/
def build_embed_from_payload (payload : Payload) (author : String) : Embed :=
  let kind := payload.kind
  let assumptions := payload.assumptions
  let base : Embed := { authorName := author }
  let withBody : Embed :=
    if kind = some "food_log" then
      let totals := payload.totals.getD emptyTotals
      let e1 : Embed := { base with
        title := some "Calories & Macros (Food Log)",
        fields := [⟨"Totals", totalsValue totals, false⟩] }
      let items := payload.items.getD []
      if items ≠ [] then
        { e1 with fields := e1.fields ++
            [⟨"Items", String.intercalate "\n" ((items.take 20).map itemLine), false⟩] }
      else e1
    else if kind = some "macro_plan" then
      let plan := payload.plan.getD emptyPlan
      let e1 : Embed := { base with
        title := some "Daily Macro Targets",
        fields := [⟨"Targets", targetsValue plan, false⟩] }
      match pyStrTruthy plan.notes with
      | some ns => { e1 with fields := e1.fields ++ [⟨"Notes", ns, false⟩] }
      | none => e1
    else
      { base with title := some "Nutrition Result",
                  description := some fallbackDescription }
  match pyStrTruthy assumptions with
  | some a => { withBody with footer := some ("Assumptions: " ++ pyTake a 1900) }
  | none => withBody

/-- Remove the Discord bold markers `**`, which the client renders as
formatting rather than text. -/
def stripBoldAux : List Char → List Char
  | [] => []
  | '*' :: '*' :: rest => stripBoldAux rest
  | c :: rest => c :: stripBoldAux rest

/-- `stripBold s` is the displayed text of a markdown string `s`. -/
def stripBold (s : String) : String := String.mk (stripBoldAux s.data)

/-- Substring test on character lists. -/
def listContains (pat : List Char) : List Char → Bool
  | [] => pat.isEmpty
  | c :: rest => pat.isPrefixOf (c :: rest) || listContains pat rest

/-- Substring test on strings (by code points). -/
def strContains (s pat : String) : Bool := listContains pat.data s.data

/-- All the text of an embed, in display order. -/
def embedText (e : Embed) : String :=
  (e.title.getD "") ++ "\n" ++ (e.description.getD "") ++ "\n" ++
  String.intercalate "\n" (e.fields.map (fun f => f.name ++ "\n" ++ f.value)) ++
  "\n" ++ (e.footer.getD "")

/-- The rendered output of an embed shows `pat` when `pat` occurs in its
displayed (bold markers stripped) text. -/
def showsText (e : Embed) (pat : String) : Bool :=
  strContains (stripBold (embedText e)) pat

/-- Helper for `pySplit`: accumulate the current token (reversed) while
scanning the character list. -/
def pySplitAux (sep : Char) : List Char → List Char → List String
  | [], acc => [String.mk acc.reverse]
  | c :: rest, acc =>
    if c = sep then String.mk acc.reverse :: pySplitAux sep rest []
    else pySplitAux sep rest (c :: acc)

/-- Python `s.split(sep)` for a one-character separator: the empty string
splits to `[""]`, and adjacent separators yield empty tokens. -/
def pySplit (s : String) (sep : Char) : List String := pySplitAux sep s.data []

/-- Drop leading whitespace characters. -/
def dropLeadingWs : List Char → List Char
  | [] => []
  | c :: rest => if c.isWhitespace then dropLeadingWs rest else c :: rest

/-- Python `str.strip()`: remove leading and trailing whitespace. -/
def pyStrip (s : String) : String :=
  String.mk ((dropLeadingWs (dropLeadingWs s.data).reverse).reverse)

/-- Python `str.isdigit` restricted to ASCII decimal digits (non-ASCII digit
classes are outside this embedding): true iff the string is non-empty and
all of its characters are digits. -/
def pyIsdigit (t : String) : Bool := !t.data.isEmpty && t.data.all Char.isDigit

/-- Decimal value of a digit string, most significant first. -/
def digitsToNat : List Char → Nat → Nat
  | [], acc => acc
  | c :: rest, acc => digitsToNat rest (acc * 10 + (c.toNat - 48))

/-- Python `int(t)` for a string of decimal digits. -/
def pyInt (t : String) : Nat := digitsToNat t.data 0

/-- The parsed channel allow-list (bot.py lines 14-16):
`\x7bint(x.strip()) for x in raw.split(",") if x.strip().isdigit()\x7d`. -/
def WATCH_CHANNEL_IDS (raw : String) : Finset Nat :=
  ((pySplit raw ',').filterMap
    (fun x => if pyIsdigit (pyStrip x) then some (pyInt (pyStrip x)) else none)).toFinset

/-- The fixed instruction prompt (bot.py lines 33-44), shared by the primary
and the fallback OpenAI call. -/
def SYSTEM_PROMPT : String :=
  "You are a precise nutrition assistant for calorie and macro calculations. " ++
  "Given a user message that may contain foods/quantities (e.g., \x27180g chicken breast and 120g broccoli\x27) " ++
  "or body stats/goals (e.g., weight, body fat %, goal date), respond with structured JSON only. " ++
  "If foods are given, estimate calories and macros using common nutrition references; " ++
  "state any assumptions (brand defaults, cooked/raw, missing weights). " ++
  "If a daily macro plan is implied (goal/weight/activity), propose targets with:\n" ++
  "• Protein ≈ 1.6–2.2 g/kg bodyweight (adjust if on a cut/deficit)\n" ++
  "• Fat at least ~0.6 g/kg, remainder carbs\n" ++
  "• If goal is fat loss, set a modest deficit (~300–500 kcal/day) unless a different, explicit target is given.\n" ++
  "Be conservative with claims and do not provide medical advice."

/-- The generic apology reply (bot.py lines 207 and 212). -/
def apologyText : String := "Sorry — I couldn\x27t process that just now."

/-- An incoming Discord message, as consumed by `on_message`: the author bot
flag, the channel id, the (possibly missing) text content, and the author
display name. -/
structure Message where
  authorBot : Bool
  channelId : Nat
  content : Option String
  author : String
deriving DecidableEq

/-- One outbound `client.responses.create` call: its instruction string,
whether a `response_format` JSON schema was attached, and its input text. -/
structure ApiCall where
  instructions : String
  hasSchema : Bool
  input : String
deriving DecidableEq

/-- Outcome of an OpenAI call: returned text, or a raised exception. -/
inductive CallResult where
  | ok (text : String)
  | error
deriving DecidableEq

/-- The external behaviour a single handling of a message observes: the
primary call outcome, the result of `json.loads` on any returned text, and
the fallback call outcome. -/
structure Env where
  primaryResult : CallResult
  decode : String → Option Payload
  fallbackResult : CallResult

/-- A reply sent by the bot: an embed or plain text. -/
inductive Reply where
  | embed (e : Embed)
  | text (s : String)
deriving DecidableEq

/-- What one invocation of the handler did: the OpenAI calls it issued, in
order, and the reply it sent (if any). -/
structure HandlerOutput where
  calls : List ApiCall
  reply : Option Reply
deriving DecidableEq

/-- `on_message` (bot.py lines 174-212) as a pure trace function.

The filter is lines 176-185: bot author, channel allow-list, empty trimmed
content.  A qualifying message issues the primary schema-constrained call
(`call_openai_for_nutrition`, lines 101-109); if it raises, the generic
`except Exception` branch replies with the apology; if its text fails
`json.loads`, the `except json.JSONDecodeError` branch issues the
schema-less fallback call with the same instructions and replies with its
raw text sliced to 1900 code points, or with the apology when the fallback
itself raises. -/
def on_message (watch : Finset Nat) (msg : Message) (env : Env) : HandlerOutput :=
  if msg.authorBot = true then ⟨[], none⟩
  else if watch ≠ ∅ ∧ msg.channelId ∉ watch then ⟨[], none⟩
  else
    let content := pyStrip (msg.content.getD "")
    if content = "" then ⟨[], none⟩
    else
      let primCall : ApiCall := ⟨SYSTEM_PROMPT, true, content⟩
      match env.primaryResult with
      | .error => ⟨[primCall], some (.text apologyText)⟩
      | .ok raw =>
        match env.decode raw with
        | some payload =>
          ⟨[primCall], some (.embed (build_embed_from_payload payload msg.author))⟩
        | none =>
          let fbCall : ApiCall := ⟨SYSTEM_PROMPT, false, content⟩
          match env.fallbackResult with
          | .ok fraw => ⟨[primCall, fbCall], some (.text (pyTake fraw 1900))⟩
          | .error => ⟨[primCall, fbCall], some (.text apologyText)⟩

/-- The module-level mutable state visible to the handler.  The only
process-wide configuration `on_message` reads is the parsed allow-list; the
handler body contains no assignment to any module global. -/
structure BotState where
  watch : Finset Nat

/-- `on_message` with the module state passed and returned explicitly: the
source assigns no global, so the state comes back unchanged. -/
def on_message_st (st : BotState) (msg : Message) (env : Env) :
    BotState × HandlerOutput :=
  (st, on_message st.watch msg env)

/-! Concrete inputs used by the theorems below. -/

/-- The food item of the spec example: chicken breast, 180 g, 300 kcal,
56 g protein, 0 g carbs, 6 g fat. -/
def item3 : FoodItem := ⟨some "chicken breast", some "180 g", some 300, some 56, some 0, some 6⟩

/-- The `food_log` payload of the spec example. -/
def payload3 : Payload :=
  ⟨some "food_log", some [item3], some ⟨some 300, some 56, some 0, some 6⟩, none, none⟩

/-- The `macro_plan` payload of the spec example: calories 2200, protein
180, carbs 220, fat 70, notes "cut phase". -/
def payload7 : Payload :=
  ⟨some "macro_plan", none, none, some ⟨some 2200, some 180, some 220, some 70, some "cut phase"⟩, none⟩

/-- A payload whose kind is neither `food_log` nor `macro_plan`, with
items, totals and plan all populated. -/
def weirdPayload : Payload :=
  ⟨some "smoothie", some [item3], some ⟨some 1, some 2, some 3, some 4⟩,
   some ⟨some 5, some 6, some 7, some 8, some "x"⟩, none⟩

/-- A `food_log` payload with no items, totals, plan or assumptions. -/
def noTotalsPayload : Payload := ⟨some "food_log", none, none, none, none⟩

/-- A `macro_plan` payload with no plan object at all. -/
def noPlanPayload : Payload := ⟨some "macro_plan", none, none, none, none⟩

/-- A payload carrying only a short assumptions string. -/
def assumpPayload : Payload := ⟨none, none, none, none, some "used cooked weights"⟩

/-- An assumptions string of 1901 characters, one over the truncation
threshold. -/
def bigAssumptions : String := String.mk (List.replicate 1901 'a')

/-- A payload whose assumptions string is 1901 characters long. -/
def cexPayload : Payload := ⟨none, none, none, none, some bigAssumptions⟩

/-- A plain, non-bot message with content "hello" in channel 42. -/
def msgHello : Message := ⟨false, 42, some "hello", "alice"⟩

/-- A message sent by a bot author. -/
def msgFromBot : Message := ⟨true, 42, some "hi", "b"⟩

/-- An environment where the primary call returns text that decodes to an
untagged payload and the fallback would also succeed. -/
def envAnyOk : Env := ⟨.ok "x", fun _ => some ⟨none, none, none, none, none⟩, .ok "y"⟩

/-- An environment where the primary text is not valid JSON and the
fallback call raises. -/
def envNoJsonFBFail : Env := ⟨.ok "not json", fun _ => none, .error⟩

/-- An environment where the primary text is not valid JSON and the
fallback call returns plain text. -/
def envFBok : Env := ⟨.ok "nj", fun _ => none, .ok "plain text answer"⟩

/-- An environment where the primary call itself raises. -/
def envPrimaryError : Env := ⟨.error, fun _ => none, .ok "y"⟩

/-! Helper lemmas shared by the claim theorems. -/

/-- `pyTake` takes at most `n` code points. -/
theorem length_pyTake (s : String) (n : Nat) :
    (pyTake s n).length = min n s.length := by
  rw [pyTake, String.length_mk, List.length_take]
  rfl

/-- The 1901-character assumptions string has length 1901. -/
theorem bigAssumptions_length : bigAssumptions.length = 1901 := by
  show (String.mk (List.replicate 1901 'a')).length = 1901
  rw [String.length_mk, List.length_replicate]

/-- The 1901-character assumptions string is non-empty. -/
theorem bigAssumptions_ne_empty : bigAssumptions ≠ "" := by
  intro h
  have hl := congrArg String.length h
  rw [bigAssumptions_length, String.length_empty] at hl
  exact absurd hl (by decide)

/-- A missing optional string is falsy. -/
theorem pyStrTruthy_none : pyStrTruthy none = none := rfl

/-- The empty plan dict has no notes entry. -/
theorem emptyPlan_notes : emptyPlan.notes = none := rfl

/-- The totals block rendered from a missing `totals` object. -/
theorem totalsValue_empty :
    totalsValue emptyTotals =
      "**Calories:** 0 kcal\n**Protein:** 0.0 g  **Carbs:** 0.0 g  **Fat:** 0.0 g" := by
  decide

/-- The targets block rendered from a missing `plan` object. -/
theorem targetsValue_empty :
    targetsValue emptyPlan =
      "**Calories:** 0 kcal/day\n**Protein:** 0 g  **Carbs:** 0 g  **Fat:** 0 g" := by
  decide

/-! The claim theorems. -/

/-- Claim C1, code behaviour at the failing input: with the allow-list
configuration string empty, the parsed allow-list is empty, and yet the
handler does not drop a qualifying message: the guard
`if WATCH_CHANNEL_IDS and message.channel.id not in WATCH_CHANNEL_IDS` is
skipped for an empty set, so the handler issues the primary completion
call and sends a reply in channel 42.  This contradicts the startup
warning printed by the source for an empty allow-list, which announces
that the bot will not respond to any channel. -/
theorem C1_empty_allowlist_still_forwards :
    WATCH_CHANNEL_IDS "" = ∅ ∧
    (on_message (WATCH_CHANNEL_IDS "") msgHello envAnyOk).calls =
      [⟨SYSTEM_PROMPT, true, "hello"⟩] ∧
    (on_message (WATCH_CHANNEL_IDS "") msgHello envAnyOk).reply ≠ none := by
  decide

/-- Claim C3: for the well-formed `food_log` payload with the single
chicken-breast item and matching totals, the rendered output (embed text
with bold markers stripped, as displayed) shows "Calories: 300 kcal",
"Protein: 56.0 g", and the item line
"chicken breast — 180 g: 300 kcal | P 56.0 • C 0.0 • F 6.0". -/
theorem C3_food_log_example :
    showsText (build_embed_from_payload payload3 "user") "Calories: 300 kcal" = true ∧
    showsText (build_embed_from_payload payload3 "user") "Protein: 56.0 g" = true ∧
    showsText (build_embed_from_payload payload3 "user")
      "chicken breast — 180 g: 300 kcal | P 56.0 • C 0.0 • F 6.0" = true := by
  decide

/-- Claim C5: whenever the sender is flagged as a bot, or the allow-list is
non-empty and the channel is not a member, or the content is empty or
whitespace-only after stripping, the handler drops the event: it issues no
completion call and sends no reply. -/
theorem C5_filter_drops (watch : Finset Nat) (msg : Message) (env : Env)
    (h : msg.authorBot = true ∨ (watch ≠ ∅ ∧ msg.channelId ∉ watch) ∨
         pyStrip (msg.content.getD "") = "") :
    on_message watch msg env = ⟨[], none⟩ := by
  rcases h with hb | hc | ht
  · simp [on_message, hb]
  · by_cases hb : msg.authorBot = true
    · simp [on_message, hb]
    · simp [on_message, hb, hc]
  · by_cases hb : msg.authorBot = true
    · simp [on_message, hb]
    · by_cases hc : watch ≠ ∅ ∧ msg.channelId ∉ watch
      · simp [on_message, hb, hc]
      · simp [on_message, hb, hc, ht]

/-- Witness for C5 at a concrete input: a bot-authored message is dropped. -/
theorem C5_filter_drops_witness :
    on_message {42} msgFromBot envAnyOk = ⟨[], none⟩ :=
  C5_filter_drops {42} msgFromBot envAnyOk (Or.inl rfl)

/-- Claim C6: for every payload whose `kind` is absent or neither
"food_log" nor "macro_plan", the rendered embed has title exactly
"Nutrition Result" and the fallback explanatory description, whatever
other fields are present. -/
theorem C6_unrecognized_kind (p : Payload) (author : String)
    (h1 : p.kind ≠ some "food_log") (h2 : p.kind ≠ some "macro_plan") :
    (build_embed_from_payload p author).title = some "Nutrition Result" ∧
    (build_embed_from_payload p author).description = some fallbackDescription := by
  cases hps : pyStrTruthy p.assumptions <;>
    simp [build_embed_from_payload, h1, h2, hps]

/-- Witness for C6 at a concrete input: a payload with kind "smoothie" and
populated items, totals and plan still renders the fallback embed. -/
theorem C6_unrecognized_kind_witness :
    (build_embed_from_payload weirdPayload "u").title = some "Nutrition Result" ∧
    (build_embed_from_payload weirdPayload "u").description = some fallbackDescription :=
  C6_unrecognized_kind weirdPayload "u" (by decide) (by decide)

/-- Claim C2 counterexample: for a 1901-character assumptions string the
rendered footer text is not exactly 1900 characters: the footer is the
13-character prefix "Assumptions: " followed by the first 1900 characters
of the assumptions string, 1913 characters in all. -/
theorem C2_footer_is_1913_not_1900 :
    bigAssumptions.length = 1901 ∧
    ((build_embed_from_payload cexPayload "user").footer.getD "").length = 1913 := by
  refine ⟨bigAssumptions_length, ?_⟩
  have hfoot : (build_embed_from_payload cexPayload "user").footer
      = some ("Assumptions: " ++ pyTake bigAssumptions 1900) := by
    simp [build_embed_from_payload, cexPayload, pyStrTruthy, bigAssumptions_ne_empty]
  rw [hfoot, Option.getD_some, String.length_append, length_pyTake, bigAssumptions_length]
  decide

/-- Claim C2 (amended): for every payload whose assumptions string is
present and non-empty, the reply carries a footer whose text is
"Assumptions: " followed by the assumptions text truncated to 1900
characters; for an assumptions string longer than 1900 characters the
assumptions portion is exactly 1900 characters, making the whole footer
1913 characters. -/
theorem C2_assumptions_footer (p : Payload) (author a : String)
    (h : p.assumptions = some a) (hne : a ≠ "") :
    (build_embed_from_payload p author).footer =
      some ("Assumptions: " ++ pyTake a 1900) ∧
    (1900 < a.length →
      (pyTake a 1900).length = 1900 ∧
      ("Assumptions: " ++ pyTake a 1900).length = 1913) := by
  constructor
  · have hps : pyStrTruthy p.assumptions = some a := by simp [pyStrTruthy, h, hne]
    simp [build_embed_from_payload, hps]
  · intro hlen
    have h1 : (pyTake a 1900).length = 1900 := by rw [length_pyTake]; omega
    refine ⟨h1, ?_⟩
    rw [String.length_append, h1]
    decide

/-- Witness for C2 at a concrete input: a short assumptions string becomes
the footer "Assumptions: used cooked weights". -/
theorem C2_assumptions_footer_witness :
    (build_embed_from_payload assumpPayload "u").footer =
      some ("Assumptions: " ++ pyTake "used cooked weights" 1900) ∧
    (1900 < ("used cooked weights" : String).length →
      (pyTake "used cooked weights" 1900).length = 1900 ∧
      ("Assumptions: " ++ pyTake "used cooked weights" 1900).length = 1913) :=
  C2_assumptions_footer assumpPayload "u" "used cooked weights" rfl (by decide)

/-- Claim C4 counterexample: for a message whose primary response is not
valid JSON but whose fallback call raises, the handler does issue the one
fallback call, yet the reply is the generic apology, not the fallback
call's raw text: an error is surfaced to the user. -/
theorem C4_fallback_failure_gives_apology :
    (on_message {42} msgHello envNoJsonFBFail).calls =
      [⟨SYSTEM_PROMPT, true, "hello"⟩, ⟨SYSTEM_PROMPT, false, "hello"⟩] ∧
    (on_message {42} msgHello envNoJsonFBFail).reply = some (.text apologyText) := by
  decide

/-- Claim C4 (amended): for every qualifying message whose primary
structured response is not valid JSON, the handler issues exactly one
schema-less fallback call carrying the same instruction prompt; if the
fallback call returns text, the reply is that raw text truncated to 1900
characters and no error is surfaced. -/
theorem C4_invalid_json_fallback (watch : Finset Nat) (msg : Message) (env : Env)
    (raw : String)
    (hb : msg.authorBot = false)
    (hc : ¬(watch ≠ ∅ ∧ msg.channelId ∉ watch))
    (ht : pyStrip (msg.content.getD "") ≠ "")
    (hp : env.primaryResult = .ok raw)
    (hd : env.decode raw = none) :
    (on_message watch msg env).calls =
      [⟨SYSTEM_PROMPT, true, pyStrip (msg.content.getD "")⟩,
       ⟨SYSTEM_PROMPT, false, pyStrip (msg.content.getD "")⟩] ∧
    (∀ fraw, env.fallbackResult = .ok fraw →
      (on_message watch msg env).reply = some (.text (pyTake fraw 1900))) := by
  cases hf : env.fallbackResult <;>
    simp [on_message, hb, hc, ht, hp, hd, hf]

/-- Witness for C4 at a concrete input: non-JSON primary text with a
successful fallback. -/
theorem C4_invalid_json_fallback_witness :
    (on_message {42} msgHello envFBok).calls =
      [⟨SYSTEM_PROMPT, true, pyStrip (msgHello.content.getD "")⟩,
       ⟨SYSTEM_PROMPT, false, pyStrip (msgHello.content.getD "")⟩] ∧
    (∀ fraw, envFBok.fallbackResult = .ok fraw →
      (on_message {42} msgHello envFBok).reply = some (.text (pyTake fraw 1900))) :=
  C4_invalid_json_fallback {42} msgHello envFBok "nj" rfl (by decide) (by decide) rfl rfl

/-- Claim C7: every `macro_plan` payload renders with title "Daily Macro
Targets"; its first block shows daily calories with 0 decimal places and
the suffix "kcal/day", and protein, carbs and fat with 0 decimal places; a
Notes block is present exactly when non-empty notes text is present.  At
the concrete plan (2200 kcal, 180/220/70, notes "cut phase") the displayed
output shows "Calories: 2200 kcal/day" and a Notes block reading
"cut phase". -/
theorem C7_daily_targets_format :
    (∀ (p : Payload) (author : String), p.kind = some "macro_plan" →
      (build_embed_from_payload p author).title = some "Daily Macro Targets" ∧
      (build_embed_from_payload p author).fields.head? =
        some ⟨"Targets",
          "**Calories:** " ++ fmt0 ((p.plan.getD emptyPlan).calories_kcal.getD 0) ++ " kcal/day\n" ++
          "**Protein:** " ++ fmt0 ((p.plan.getD emptyPlan).protein_g.getD 0) ++ " g  " ++
          "**Carbs:** " ++ fmt0 ((p.plan.getD emptyPlan).carbs_g.getD 0) ++ " g  " ++
          "**Fat:** " ++ fmt0 ((p.plan.getD emptyPlan).fat_g.getD 0) ++ " g", false⟩ ∧
      ((build_embed_from_payload p author).fields.any (fun f => f.name == "Notes") =
        (pyStrTruthy (p.plan.getD emptyPlan).notes).isSome)) ∧
    showsText (build_embed_from_payload payload7 "u") "Calories: 2200 kcal/day" = true ∧
    (build_embed_from_payload payload7 "u").fields.any
      (fun f => f.name == "Notes" && f.value == "cut phase") = true := by
  refine ⟨?_, by decide, by decide⟩
  intro p author hk
  cases hps : pyStrTruthy p.assumptions <;>
    cases hn : pyStrTruthy (p.plan.getD emptyPlan).notes <;>
      simp [build_embed_from_payload, targetsValue, hk, hps, hn]

/-- Witness for C7 at the concrete macro plan payload. -/
theorem C7_daily_targets_format_witness :
    (build_embed_from_payload payload7 "u").title = some "Daily Macro Targets" :=
  (C7_daily_targets_format.1 payload7 "u" rfl).1

/-- Claim C8: a qualifying message whose primary call raises (anything but
a JSON decode failure) gets exactly one primary call, no retry, and the
generic apology reply; one whose fallback call raises gets exactly one
primary and one fallback call, no retry, and the generic apology reply;
and handling never changes the module state, so subsequent messages are
handled identically. -/
theorem C8_failures_apology (watch : Finset Nat) (msg : Message) (env : Env)
    (st : BotState)
    (hb : msg.authorBot = false)
    (hc : ¬(watch ≠ ∅ ∧ msg.channelId ∉ watch))
    (ht : pyStrip (msg.content.getD "") ≠ "") :
    (env.primaryResult = .error →
      on_message watch msg env =
        ⟨[⟨SYSTEM_PROMPT, true, pyStrip (msg.content.getD "")⟩],
         some (.text apologyText)⟩) ∧
    (∀ raw, env.primaryResult = .ok raw → env.decode raw = none →
      env.fallbackResult = .error →
      on_message watch msg env =
        ⟨[⟨SYSTEM_PROMPT, true, pyStrip (msg.content.getD "")⟩,
          ⟨SYSTEM_PROMPT, false, pyStrip (msg.content.getD "")⟩],
         some (.text apologyText)⟩) ∧
    (on_message_st st msg env).1 = st := by
  refine ⟨?_, ?_, rfl⟩
  · intro hp
    simp [on_message, hb, hc, ht, hp]
  · intro raw hp hd hf
    simp [on_message, hb, hc, ht, hp, hd, hf]

/-- Witness for C8 at a concrete input: a raising primary call yields the
apology. -/
theorem C8_failures_apology_witness :
    on_message {42} msgHello envPrimaryError =
      ⟨[⟨SYSTEM_PROMPT, true, pyStrip (msgHello.content.getD "")⟩],
       some (.text apologyText)⟩ :=
  (C8_failures_apology {42} msgHello envPrimaryError ⟨{42}⟩ rfl (by decide) (by decide)).1 rfl

/-- Claim C9: the renderer is default-safe over missing fields.  A
`food_log` payload with no totals object renders the all-zero totals
block; a `macro_plan` payload with no plan object renders the all-zero
targets block and no Notes block; an item with every field missing renders
with name "?" and all numbers 0; and both the totals and the targets
blocks render each absent numeric field exactly as they would render an
explicit 0. -/
theorem C9_missing_fields_default_zero :
    (∀ (p : Payload) (author : String), p.kind = some "food_log" → p.totals = none →
      (build_embed_from_payload p author).fields.head? =
        some ⟨"Totals",
          "**Calories:** 0 kcal\n**Protein:** 0.0 g  **Carbs:** 0.0 g  **Fat:** 0.0 g",
          false⟩) ∧
    (∀ (p : Payload) (author : String), p.kind = some "macro_plan" → p.plan = none →
      (build_embed_from_payload p author).fields =
        [⟨"Targets",
          "**Calories:** 0 kcal/day\n**Protein:** 0 g  **Carbs:** 0 g  **Fat:** 0 g",
          false⟩]) ∧
    itemLine ⟨none, none, none, none, none, none⟩ =
      "• **?**: 0 kcal | P 0.0 • C 0.0 • F 0.0" ∧
    (∀ t : Totals, totalsValue t =
      totalsValue ⟨some (t.calories_kcal.getD 0), some (t.protein_g.getD 0),
                   some (t.carbs_g.getD 0), some (t.fat_g.getD 0)⟩) ∧
    (∀ pl : Plan, targetsValue pl =
      targetsValue ⟨some (pl.calories_kcal.getD 0), some (pl.protein_g.getD 0),
                    some (pl.carbs_g.getD 0), some (pl.fat_g.getD 0), pl.notes⟩) := by
  refine ⟨?_, ?_, by decide, ?_, ?_⟩
  · intro p author hk ht
    cases hps : pyStrTruthy p.assumptions <;>
      by_cases hi : (p.items.getD []) = [] <;>
        simp [build_embed_from_payload, hk, ht, hps, hi, totalsValue_empty]
  · intro p author hk hp
    cases hps : pyStrTruthy p.assumptions <;>
      simp [build_embed_from_payload, hk, hp, hps, emptyPlan_notes,
            pyStrTruthy_none, targetsValue_empty]
  · intro t
    simp [totalsValue]
  · intro pl
    simp [targetsValue]

/-- Witness for C9 at a concrete input: a `food_log` payload with no
totals object renders the all-zero totals block. -/
theorem C9_missing_fields_default_zero_witness :
    (build_embed_from_payload noTotalsPayload "u").fields.head? =
      some ⟨"Totals",
        "**Calories:** 0 kcal\n**Protein:** 0.0 g  **Carbs:** 0.0 g  **Fat:** 0.0 g",
        false⟩ :=
  C9_missing_fields_default_zero.1 noTotalsPayload "u" rfl rfl

/-- Claim C10: the parsed allow-list contains exactly the values of the
comma-separated tokens whose stripped form is a non-empty string of
digits; every other token is ignored, so a configuration of only malformed
tokens parses to the empty allow-list (shown also on two concrete
configuration strings). -/
theorem C10_allowlist_parsing :
    (∀ (raw : String) (n : Nat),
      n ∈ WATCH_CHANNEL_IDS raw ↔
        ∃ x ∈ pySplit raw ',', pyIsdigit (pyStrip x) = true ∧ pyInt (pyStrip x) = n) ∧
    (∀ raw : String,
      (∀ x ∈ pySplit raw ',', pyIsdigit (pyStrip x) = false) →
      WATCH_CHANNEL_IDS raw = ∅) ∧
    WATCH_CHANNEL_IDS "12, x, -5, 34, 012" = ({12, 34} : Finset Nat) ∧
    WATCH_CHANNEL_IDS "abc, -1, 1.5, ," = ∅ := by
  refine ⟨?_, ?_, by decide, by decide⟩
  · intro raw n
    simp only [WATCH_CHANNEL_IDS, List.mem_toFinset, List.mem_filterMap]
    constructor
    · rintro ⟨x, hx, hfx⟩
      by_cases hd : pyIsdigit (pyStrip x) = true
      · rw [if_pos hd] at hfx
        exact ⟨x, hx, hd, Option.some.inj hfx⟩
      · rw [if_neg hd] at hfx
        exact absurd hfx (by simp)
    · rintro ⟨x, hx, hd, hv⟩
      exact ⟨x, hx, by rw [if_pos hd, hv]⟩
  · intro raw hall
    unfold WATCH_CHANNEL_IDS
    have hnil : (pySplit raw ',').filterMap
        (fun x => if pyIsdigit (pyStrip x) = true then some (pyInt (pyStrip x)) else none)
        = [] := by
      rw [List.filterMap_eq_nil_iff]
      intro x hx
      rw [if_neg]
      simp [hall x hx]
    rw [hnil]
    rfl

/-- Witness for C10 at a concrete input: a configuration of only malformed
tokens parses to the empty allow-list. -/
theorem C10_allowlist_parsing_witness :
    WATCH_CHANNEL_IDS "abc, -1, 1.5" = ∅ :=
  C10_allowlist_parsing.2.1 "abc, -1, 1.5" (by decide)

end Bot
